import Mathlib

/-!
Shallow embedding of `src/unet/train.py` (UNet-cars-segmentation).

The module embeds the three functions of the source file — `train_step`,
`eval_step` and the orchestrator `train` — as pure Lean functions with
explicit state passing.  Scalars are rationals (the exact-arithmetic
abstraction of the Python floats).  External collaborators (the model's
forward pass, the loss criterion, the two metric functions, autograd's
backward, and the internal update rules of `GradScaler`) are opaque
function parameters bundled in `Ext`, mirroring the fact that the source
treats them as imported black boxes.  Every externally visible action of
a run (device transfers, forward passes, optimizer/scaler/scheduler
calls, progress display, directory creation, weight serialization) is
recorded in an event trace so that ordering and frame properties can be
stated.
-/

namespace UNetTrain

/-- Scalar values of the embedding: exact rationals standing for the
Python floats. -/
abbrev Scalar := ℚ

/-- A tensor: its payload plus the device it currently resides on. -/
structure Tensor where
  data : List Scalar
  device : String
deriving Repr, DecidableEq

/-- `t.to(device)` — device transfer, the payload is unchanged. -/
def Tensor.to (t : Tensor) (d : String) : Tensor := { t with device := d }

/-- One `(imgs, masks)` pair yielded by the dataloader. -/
structure Batch where
  imgs : Tensor
  masks : Tensor
deriving Repr, DecidableEq

/-- The named mapping returned by the criterion; the core only ever reads
its `"combined"` entry (`loss["combined"]`). -/
structure LossResult where
  combined : Scalar
deriving Repr, DecidableEq

/-- The model: learnable parameters, the `train()`/`eval()` mode flag and
an opaque forward function (depending on parameters and mode). -/
structure Model where
  params : List Scalar
  training : Bool
  forward : List Scalar → Bool → Tensor → Tensor

/-- `model.train()` — switch the mode flag to training. -/
def Model.train (m : Model) : Model := { m with training := true }

/-- `model.eval()` — switch the mode flag to evaluation. -/
def Model.evalMode (m : Model) : Model := { m with training := false }

/-- `model(imgs)` — apply the forward pass at the current parameters and
mode. -/
def Model.apply (m : Model) (t : Tensor) : Tensor := m.forward m.params m.training t

/-- Optimizer state: the current learning rate plus opaque internal
state (e.g. AdamW moments). -/
structure Optimizer where
  lr : Scalar
  state : List Scalar
deriving Repr, DecidableEq

/-- `torch.amp.GradScaler`: the current scale factor plus opaque growth
bookkeeping. -/
structure GradScaler where
  scale : Scalar
  growthState : Scalar
deriving Repr, DecidableEq

/-- A per-step learning-rate scheduler: how many times it has been
stepped, and the schedule of learning rates. -/
structure Scheduler where
  stepCount : ℕ
  lrs : ℕ → Scalar

/-- `scheduler.step()` — advance the counter by one and write the
scheduled learning rate into the optimizer it drives. -/
def Scheduler.step (s : Scheduler) (o : Optimizer) : Scheduler × Optimizer :=
  ({ s with stepCount := s.stepCount + 1 }, { o with lr := s.lrs (s.stepCount + 1) })

/-- `scheduler.get_last_lr()[0]`. -/
def Scheduler.get_last_lr (s : Scheduler) : Scalar := s.lrs s.stepCount

/-- The external collaborators the loop calls into: the two metric
functions, autograd's backward (scaled loss and parameters to
gradients), `scaler.step(optimizer)` (which may silently skip the
optimizer step on overflow — this is internal to the scaler, hence
opaque here) and `scaler.update()`. -/
structure Ext where
  dice_score : Tensor → Tensor → Scalar
  hausdorff_distance : Tensor → Tensor → Scalar
  backwardFn : Scalar → List Scalar → List Scalar
  scalerStepFn : GradScaler → List Scalar → List Scalar → Optimizer → List Scalar × Optimizer
  scalerUpdateFn : GradScaler → GradScaler

/-- Observable events of a run, in program order. -/
inductive Event where
  | toDevice (device : String)
  | forward
  | lossCompute
  | zeroGrad
  | backward (scaledLoss : Scalar)
  | scalerStep
  | scalerUpdate
  | schedulerStep
  | trainMode
  | evalMode
  | display (desc : String) (avgLoss avgDice : Scalar)
  | epochHeader (epoch : ℕ)
  | reportLR (lr : Scalar)
  | reportTrain (loss dice : Scalar)
  | reportVal (loss dice : Scalar)
  | reportTest (loss dice : Scalar)
  | makedirs (path : String)
  | save (params : List Scalar) (path : String)
deriving Repr, DecidableEq

/-- The payload-free shape of an event, for stating ordering facts. -/
inductive Tag where
  | toDevice
  | forward
  | lossCompute
  | zeroGrad
  | backward
  | scalerStep
  | scalerUpdate
  | schedulerStep
  | trainMode
  | evalMode
  | display
  | epochHeader
  | reportLR
  | reportTrain
  | reportVal
  | reportTest
  | makedirs
  | save
deriving Repr, DecidableEq

/-- Forget an event's payload. -/
def Event.tag : Event → Tag
  | .toDevice _ => .toDevice
  | .forward => .forward
  | .lossCompute => .lossCompute
  | .zeroGrad => .zeroGrad
  | .backward _ => .backward
  | .scalerStep => .scalerStep
  | .scalerUpdate => .scalerUpdate
  | .schedulerStep => .schedulerStep
  | .trainMode => .trainMode
  | .evalMode => .evalMode
  | .display _ _ _ => .display
  | .epochHeader _ => .epochHeader
  | .reportLR _ => .reportLR
  | .reportTrain _ _ => .reportTrain
  | .reportVal _ _ => .reportVal
  | .reportTest _ _ => .reportTest
  | .makedirs _ => .makedirs
  | .save _ _ => .save

/-- The epoch history: `{"loss": ..., "dice": ..., "hausdorff": ...}`. -/
structure History where
  loss : List Scalar
  dice : List Scalar
  hausdorff : List Scalar
deriving Repr, DecidableEq, Inhabited

/-- `np.zeros(n_batches)` for each of the three keys. -/
def History.zeros (n : ℕ) : History :=
  { loss := List.replicate n 0
    dice := List.replicate n 0
    hausdorff := List.replicate n 0 }

/-- The (loss, dice, hausdorff) triple the loop body computes for one
batch in a given model state: move both tensors to the device, run the
forward pass, evaluate the criterion and the two metrics. -/
def batchValues (E : Ext) (criterion : Tensor → Tensor → LossResult) (device : String)
    (m : Model) (b : Batch) : Scalar × Scalar × Scalar :=
  let imgs := b.imgs.to device
  let masks := b.masks.to device
  let preds := m.apply imgs
  ((criterion preds masks).combined, E.dice_score preds masks, E.hausdorff_distance preds masks)

/-- The mutable state of one `train_step` invocation. -/
structure TrainState where
  model : Model
  optimizer : Optimizer
  scaler : GradScaler
  scheduler : Option Scheduler
  grads : Option (List Scalar)
  history : History
  running_loss : Scalar
  running_dice : Scalar
  running_hausdorff : Scalar
  trace : List Event

/-- The body of the `for i, (imgs, masks) in progress` loop of
`train_step`: forward and loss under autocast, `zero_grad(set_to_none)`,
backward on the scaled loss, `scaler.step(optimizer)`, `scaler.update()`,
the guarded `scheduler.step()`, the three history writes at index `i`,
the running sums and the progress display. -/
def trainBatch (E : Ext) (criterion : Tensor → Tensor → LossResult) (device : String)
    (st : TrainState) (i : ℕ) (b : Batch) : TrainState :=
  let v := batchValues E criterion device st.model b
  let scaled := st.scaler.scale * v.1
  let grads := E.backwardFn scaled st.model.params
  let po := E.scalerStepFn st.scaler grads st.model.params st.optimizer
  let scaler2 := E.scalerUpdateFn st.scaler
  let so : Option Scheduler × Optimizer :=
    match st.scheduler with
    | some s => let r := s.step po.2; (some r.1, r.2)
    | none => (none, po.2)
  let rl := st.running_loss + v.1
  let rd := st.running_dice + v.2.1
  let rh := st.running_hausdorff + v.2.2
  { model := { st.model with params := po.1 }
    optimizer := so.2
    scaler := scaler2
    scheduler := so.1
    grads := some grads
    history :=
      { loss := st.history.loss.set i v.1
        dice := st.history.dice.set i v.2.1
        hausdorff := st.history.hausdorff.set i v.2.2 }
    running_loss := rl
    running_dice := rd
    running_hausdorff := rh
    trace := st.trace ++
      [Event.toDevice device, Event.forward, Event.lossCompute, Event.zeroGrad,
        Event.backward scaled, Event.scalerStep, Event.scalerUpdate] ++
      (match st.scheduler with
        | some _ => [Event.schedulerStep]
        | none => []) ++
      [Event.display "Training" (rl / ((i : Scalar) + 1)) (rd / ((i : Scalar) + 1))] }

/-- The indexed loop of `train_step` (`enumerate(dataloader)` starting
at `i`). -/
def trainLoop (E : Ext) (criterion : Tensor → Tensor → LossResult) (device : String) :
    TrainState → ℕ → List Batch → TrainState
  | st, _, [] => st
  | st, i, b :: bs => trainLoop E criterion device (trainBatch E criterion device st i b) (i + 1) bs

/-- The state `train_step` starts its loop from: model put in training
mode, zero running sums, `np.zeros`-preallocated history. -/
def trainInit (model : Model) (optimizer : Optimizer) (scaler : GradScaler)
    (scheduler : Option Scheduler) (n : ℕ) : TrainState :=
  { model := model.train
    optimizer := optimizer
    scaler := scaler
    scheduler := scheduler
    grads := none
    history := History.zeros n
    running_loss := 0
    running_dice := 0
    running_hausdorff := 0
    trace := [Event.trainMode] }

/-- `train_step(model, dataloader, optimizer, criterion, device, scaler,
scheduler)` of `src/unet/train.py`. -/
def train_step (E : Ext) (model : Model) (dataloader : List Batch) (optimizer : Optimizer)
    (criterion : Tensor → Tensor → LossResult) (device : String) (scaler : GradScaler)
    (scheduler : Option Scheduler) : TrainState :=
  trainLoop E criterion device (trainInit model optimizer scaler scheduler dataloader.length)
    0 dataloader

/-- The per-batch (loss, dice, hausdorff) values a training pass records,
in batch order, following the same state evolution as the loop. -/
def recordedTriples (E : Ext) (criterion : Tensor → Tensor → LossResult) (device : String) :
    TrainState → ℕ → List Batch → List (Scalar × Scalar × Scalar)
  | _, _, [] => []
  | st, i, b :: bs =>
      batchValues E criterion device st.model b ::
        recordedTriples E criterion device (trainBatch E criterion device st i b) (i + 1) bs

/-- The mutable state of one `eval_step` invocation: no optimizer,
scaler, scheduler or gradients are in scope. -/
structure EvalState where
  model : Model
  history : History
  running_loss : Scalar
  running_dice : Scalar
  running_hausdorff : Scalar
  trace : List Event

/-- The body of the evaluation loop: forward and loss under `no_grad`,
the three history writes at index `i`, the running sums and the progress
display. -/
def evalBatch (E : Ext) (criterion : Tensor → Tensor → LossResult) (device desc : String)
    (st : EvalState) (i : ℕ) (b : Batch) : EvalState :=
  let v := batchValues E criterion device st.model b
  let rl := st.running_loss + v.1
  let rd := st.running_dice + v.2.1
  let rh := st.running_hausdorff + v.2.2
  { model := st.model
    history :=
      { loss := st.history.loss.set i v.1
        dice := st.history.dice.set i v.2.1
        hausdorff := st.history.hausdorff.set i v.2.2 }
    running_loss := rl
    running_dice := rd
    running_hausdorff := rh
    trace := st.trace ++
      [Event.toDevice device, Event.forward, Event.lossCompute,
        Event.display desc (rl / ((i : Scalar) + 1)) (rd / ((i : Scalar) + 1))] }

/-- The indexed loop of `eval_step`. -/
def evalLoop (E : Ext) (criterion : Tensor → Tensor → LossResult) (device desc : String) :
    EvalState → ℕ → List Batch → EvalState
  | st, _, [] => st
  | st, i, b :: bs => evalLoop E criterion device desc (evalBatch E criterion device desc st i b) (i + 1) bs

/-- The state `eval_step` starts its loop from: model put in evaluation
mode, zero running sums, `np.zeros`-preallocated history. -/
def evalInit (model : Model) (n : ℕ) : EvalState :=
  { model := model.evalMode
    history := History.zeros n
    running_loss := 0
    running_dice := 0
    running_hausdorff := 0
    trace := [Event.evalMode] }

/-- `eval_step(model, dataloader, criterion, device, desc)` of
`src/unet/train.py`. -/
def eval_step (E : Ext) (model : Model) (dataloader : List Batch)
    (criterion : Tensor → Tensor → LossResult) (device : String) (desc : String) : EvalState :=
  evalLoop E criterion device desc (evalInit model dataloader.length) 0 dataloader

/-- `np.mean` on a one-dimensional array, as exact arithmetic:
sum divided by length. -/
def npMean (l : List Scalar) : Scalar := l.sum / (l.length : Scalar)

/-- What the orchestrator computes and reports for one epoch. -/
structure EpochData where
  trainHist : History
  valHist : History
  lr : Scalar
  trainLoss : Scalar
  trainDice : Scalar
  valLoss : Scalar
  valDice : Scalar
deriving Repr, DecidableEq, Inhabited

/-- The orchestrator's state across epochs: the objects Python mutates
in place (model, optimizer, scaler, scheduler) plus the reported data
and the trace. -/
structure OrchState where
  model : Model
  optimizer : Optimizer
  scaler : GradScaler
  scheduler : Scheduler
  epochData : List EpochData
  trace : List Event

/-- One iteration of the orchestrator's epoch loop: the training pass,
the validation pass, and the epoch report (learning rate, mean losses
and dice of both splits). -/
def runEpoch (E : Ext) (criterion : Tensor → Tensor → LossResult) (device : String)
    (trainLoader valLoader : List Batch) (st : OrchState) (epoch : ℕ) : OrchState :=
  let ts := train_step E st.model trainLoader st.optimizer criterion device st.scaler
    (some st.scheduler)
  let vs := eval_step E ts.model valLoader criterion device "Validating"
  let sched2 := ts.scheduler.getD st.scheduler
  let train_loss := npMean ts.history.loss
  let train_dice := npMean ts.history.dice
  let val_loss := npMean vs.history.loss
  let val_dice := npMean vs.history.dice
  { model := vs.model
    optimizer := ts.optimizer
    scaler := ts.scaler
    scheduler := sched2
    epochData := st.epochData ++
      [⟨ts.history, vs.history, sched2.get_last_lr, train_loss, train_dice, val_loss, val_dice⟩]
    trace := st.trace ++ [Event.epochHeader epoch] ++ ts.trace ++ vs.trace ++
      [Event.reportLR sched2.get_last_lr, Event.reportTrain train_loss train_dice,
        Event.reportVal val_loss val_dice] }

/-- `for epoch in range(n_epochs)`: run `k` more epochs starting at
epoch number `e`. -/
def epochLoop (E : Ext) (criterion : Tensor → Tensor → LossResult) (device : String)
    (trainLoader valLoader : List Batch) : OrchState → ℕ → ℕ → OrchState
  | st, _, 0 => st
  | st, e, k + 1 =>
      epochLoop E criterion device trainLoader valLoader
        (runEpoch E criterion device trainLoader valLoader st e) (e + 1) k

/-- What `train()` produces: the final model, the per-epoch data, the
test results and the full event trace. -/
structure OrchResult where
  model : Model
  epochData : List EpochData
  testHist : History
  testLoss : Scalar
  testDice : Scalar
  trace : List Event

/-- The orchestrator `train()` of `src/unet/train.py`, parametrized by
the externally constructed objects (datasets/loaders, model, optimizer,
scheduler, criterion, scaler are all built by external collaborators in
the source).  It runs `n_epochs` epochs of train+validate, one test
pass, then creates the models directory and saves the final weights. -/
def train (E : Ext) (n_epochs : ℕ) (model0 : Model)
    (trainLoader valLoader testLoader : List Batch) (optimizer0 : Optimizer)
    (scheduler0 : Scheduler) (criterion : Tensor → Tensor → LossResult) (device : String)
    (scaler0 : GradScaler) : OrchResult :=
  let st := epochLoop E criterion device trainLoader valLoader
    { model := model0
      optimizer := optimizer0
      scaler := scaler0
      scheduler := scheduler0
      epochData := []
      trace := [] } 0 n_epochs
  let test := eval_step E st.model testLoader criterion device "Testing"
  let test_loss := npMean test.history.loss
  let test_dice := npMean test.history.dice
  { model := test.model
    epochData := st.epochData
    testHist := test.history
    testLoss := test_loss
    testDice := test_dice
    trace := st.trace ++ test.trace ++
      [Event.reportTest test_loss test_dice, Event.makedirs "../models",
        Event.save test.model.params "../models/UNet.pth"] }

/-- The `(desc, avgLoss, avgDice)` payload of a display event, if any. -/
def displayData : Event → Option (String × Scalar × Scalar)
  | .display d a b => some (d, a, b)
  | _ => none

/-- The last progress display shown during a pass. -/
def lastDisplay (t : List Event) : Option (String × Scalar × Scalar) :=
  (t.filterMap displayData).getLast?

/-- The tag shape of one evaluation batch. -/
def evalBlockTags : List Tag := [Tag.toDevice, Tag.forward, Tag.lossCompute, Tag.display]

/-- The tag shape of one training batch when a scheduler is present. -/
def trainBlockTagsSome : List Tag :=
  [Tag.toDevice, Tag.forward, Tag.lossCompute, Tag.zeroGrad, Tag.backward,
    Tag.scalerStep, Tag.scalerUpdate, Tag.schedulerStep, Tag.display]

/-- The tag shape of one training batch when no scheduler is present. -/
def trainBlockTagsNone : List Tag :=
  [Tag.toDevice, Tag.forward, Tag.lossCompute, Tag.zeroGrad, Tag.backward,
    Tag.scalerStep, Tag.scalerUpdate, Tag.display]

/-! ### List helpers -/

theorem take_succ_set {α : Type _} (l : List α) (i : ℕ) (x : α) (h : i < l.length) :
    (l.set i x).take (i + 1) = l.take i ++ [x] := by
  rw [List.set_eq_take_cons_drop _ h]
  have hlen : (l.take i).length = i := by
    simp [List.length_take]
    omega
  rw [List.take_append_eq_append_take]
  rw [hlen]
  simp

/-! ### Facts about the evaluation loop -/

theorem evalLoop_model (E : Ext) (criterion : Tensor → Tensor → LossResult)
    (device desc : String) :
    ∀ (bs : List Batch) (st : EvalState) (i : ℕ),
      (evalLoop E criterion device desc st i bs).model = st.model := by
  intro bs
  induction bs with
  | nil => intro st i; rfl
  | cons b bs ih =>
      intro st i
      rw [evalLoop]
      rw [ih]
      rfl

theorem eval_step_model (E : Ext) (m : Model) (bs : List Batch)
    (criterion : Tensor → Tensor → LossResult) (device desc : String) :
    (eval_step E m bs criterion device desc).model = m.evalMode := by
  rw [eval_step, evalLoop_model]
  rfl

theorem evalBatch_trace_map (E : Ext) (criterion : Tensor → Tensor → LossResult)
    (device desc : String) (st : EvalState) (i : ℕ) (b : Batch) :
    ((evalBatch E criterion device desc st i b).trace).map Event.tag =
      st.trace.map Event.tag ++ evalBlockTags := by
  simp [evalBatch, Event.tag, evalBlockTags]

theorem evalLoop_tagTrace (E : Ext) (criterion : Tensor → Tensor → LossResult)
    (device desc : String) :
    ∀ (bs : List Batch) (st : EvalState) (i : ℕ),
      ((evalLoop E criterion device desc st i bs).trace).map Event.tag =
        st.trace.map Event.tag ++ (List.replicate bs.length evalBlockTags).flatten := by
  intro bs
  induction bs with
  | nil => intro st i; simp [evalLoop]
  | cons b bs ih =>
      intro st i
      rw [evalLoop, ih, evalBatch_trace_map]
      simp [List.replicate_succ]

theorem evalLoop_desc_irrel (E : Ext) (criterion : Tensor → Tensor → LossResult)
    (device d1 d2 : String) :
    ∀ (bs : List Batch) (st st' : EvalState) (i : ℕ),
      st.model = st'.model → st.history = st'.history →
      st.running_loss = st'.running_loss → st.running_dice = st'.running_dice →
      st.running_hausdorff = st'.running_hausdorff →
      (evalLoop E criterion device d1 st i bs).model =
          (evalLoop E criterion device d2 st' i bs).model ∧
      (evalLoop E criterion device d1 st i bs).history =
          (evalLoop E criterion device d2 st' i bs).history ∧
      (evalLoop E criterion device d1 st i bs).running_loss =
          (evalLoop E criterion device d2 st' i bs).running_loss ∧
      (evalLoop E criterion device d1 st i bs).running_dice =
          (evalLoop E criterion device d2 st' i bs).running_dice ∧
      (evalLoop E criterion device d1 st i bs).running_hausdorff =
          (evalLoop E criterion device d2 st' i bs).running_hausdorff := by
  intro bs
  induction bs with
  | nil =>
      intro st st' i hm hh h1 h2 h3
      simp only [evalLoop]
      exact ⟨hm, hh, h1, h2, h3⟩
  | cons b bs ih =>
      intro st st' i hm hh h1 h2 h3
      simp only [evalLoop]
      exact ih _ _ _ (by simp [evalBatch, hm]) (by simp [evalBatch, hm, hh, h1, h2, h3])
        (by simp [evalBatch, hm, hh, h1]) (by simp [evalBatch, hm, hh, h2])
        (by simp [evalBatch, hm, hh, h3])

theorem evalBatch_model (E : Ext) (criterion : Tensor → Tensor → LossResult)
    (device desc : String) (st : EvalState) (i : ℕ) (b : Batch) :
    (evalBatch E criterion device desc st i b).model = st.model := rfl

theorem evalLoop_fill (E : Ext) (criterion : Tensor → Tensor → LossResult)
    (device desc : String) :
    ∀ (bs : List Batch) (st : EvalState) (i : ℕ),
      st.history.loss.length = i + bs.length →
      st.history.dice.length = i + bs.length →
      st.history.hausdorff.length = i + bs.length →
      (evalLoop E criterion device desc st i bs).history.loss =
          st.history.loss.take i ++
            bs.map (fun b => (batchValues E criterion device st.model b).1) ∧
      (evalLoop E criterion device desc st i bs).history.dice =
          st.history.dice.take i ++
            bs.map (fun b => (batchValues E criterion device st.model b).2.1) ∧
      (evalLoop E criterion device desc st i bs).history.hausdorff =
          st.history.hausdorff.take i ++
            bs.map (fun b => (batchValues E criterion device st.model b).2.2) := by
  intro bs
  induction bs with
  | nil =>
      intro st i h1 h2 h3
      simp only [List.length_nil, Nat.add_zero] at h1 h2 h3
      refine ⟨?_, ?_, ?_⟩
      · simp only [evalLoop]
        rw [← h1]
        simp
      · simp only [evalLoop]
        rw [← h2]
        simp
      · simp only [evalLoop]
        rw [← h3]
        simp
  | cons b bs ih =>
      intro st i h1 h2 h3
      simp only [List.length_cons] at h1 h2 h3
      have hl : (evalBatch E criterion device desc st i b).history.loss =
          st.history.loss.set i (batchValues E criterion device st.model b).1 := rfl
      have hd : (evalBatch E criterion device desc st i b).history.dice =
          st.history.dice.set i (batchValues E criterion device st.model b).2.1 := rfl
      have hhd : (evalBatch E criterion device desc st i b).history.hausdorff =
          st.history.hausdorff.set i (batchValues E criterion device st.model b).2.2 := rfl
      obtain ⟨l1, l2, l3⟩ := ih (evalBatch E criterion device desc st i b) (i + 1)
        (by rw [hl]; simp only [List.length_set]; omega)
        (by rw [hd]; simp only [List.length_set]; omega)
        (by rw [hhd]; simp only [List.length_set]; omega)
      rw [evalBatch_model] at l1 l2 l3
      rw [hl] at l1
      rw [hd] at l2
      rw [hhd] at l3
      simp only [evalLoop]
      refine ⟨?_, ?_, ?_⟩
      · rw [l1, take_succ_set _ _ _ (by omega)]
        simp [List.append_assoc]
      · rw [l2, take_succ_set _ _ _ (by omega)]
        simp [List.append_assoc]
      · rw [l3, take_succ_set _ _ _ (by omega)]
        simp [List.append_assoc]

theorem evalLoop_running (E : Ext) (criterion : Tensor → Tensor → LossResult)
    (device desc : String) :
    ∀ (bs : List Batch) (st : EvalState) (i : ℕ),
      (evalLoop E criterion device desc st i bs).running_loss =
          st.running_loss +
            (bs.map (fun b => (batchValues E criterion device st.model b).1)).sum ∧
      (evalLoop E criterion device desc st i bs).running_dice =
          st.running_dice +
            (bs.map (fun b => (batchValues E criterion device st.model b).2.1)).sum := by
  intro bs
  induction bs with
  | nil =>
      intro st i
      simp [evalLoop]
  | cons b bs ih =>
      intro st i
      simp only [evalLoop]
      obtain ⟨r1, r2⟩ := ih (evalBatch E criterion device desc st i b) (i + 1)
      rw [evalBatch_model] at r1 r2
      rw [r1, r2]
      have e1 : (evalBatch E criterion device desc st i b).running_loss =
          st.running_loss + (batchValues E criterion device st.model b).1 := rfl
      have e2 : (evalBatch E criterion device desc st i b).running_dice =
          st.running_dice + (batchValues E criterion device st.model b).2.1 := rfl
      rw [e1, e2]
      constructor <;> · simp; ring

theorem evalLoop_lastDisplay (E : Ext) (criterion : Tensor → Tensor → LossResult)
    (device desc : String) :
    ∀ (bs : List Batch) (st : EvalState) (i : ℕ), bs ≠ [] →
      lastDisplay (evalLoop E criterion device desc st i bs).trace =
        some (desc,
          (evalLoop E criterion device desc st i bs).running_loss / ((i + bs.length : ℕ) : Scalar),
          (evalLoop E criterion device desc st i bs).running_dice / ((i + bs.length : ℕ) : Scalar)) := by
  intro bs
  induction bs with
  | nil => intro st i h; exact absurd rfl h
  | cons b bs ih =>
      intro st i _
      rcases eq_or_ne bs [] with rfl | hne
      · simp only [evalLoop]
        simp [lastDisplay, evalBatch, displayData, List.filterMap_append]
      · simp only [evalLoop]
        rw [ih _ _ hne]
        simp only [List.length_cons]
        rw [show i + 1 + bs.length = i + (bs.length + 1) from by omega]

/-- C10: on an empty batch sequence both runners return a history whose
three sequences are empty, and the trace shows only the mode switch —
no forward pass, no loss computation, and no optimizer, scaler or
scheduler interaction. -/
theorem empty_loader_empty_history (E : Ext) (m : Model) (optimizer : Optimizer)
    (criterion : Tensor → Tensor → LossResult) (device : String) (scaler : GradScaler)
    (scheduler : Option Scheduler) (desc : String) :
    (train_step E m [] optimizer criterion device scaler scheduler).history = ⟨[], [], []⟩ ∧
    (train_step E m [] optimizer criterion device scaler scheduler).trace = [Event.trainMode] ∧
    (eval_step E m [] criterion device desc).history = ⟨[], [], []⟩ ∧
    (eval_step E m [] criterion device desc).trace = [Event.evalMode] :=
  ⟨rfl, rfl, rfl, rfl⟩

/-- C2: `eval_step` leaves the model parameters unchanged, and its trace
contains no optimizer, scaler or scheduler interaction (no zero-grad, no
backward, no scaler step/update, no scheduler step). -/
theorem eval_step_preserves_params (E : Ext) (m : Model) (bs : List Batch)
    (criterion : Tensor → Tensor → LossResult) (device desc : String) :
    (eval_step E m bs criterion device desc).model.params = m.params ∧
    Tag.zeroGrad ∉ ((eval_step E m bs criterion device desc).trace).map Event.tag ∧
    Tag.backward ∉ ((eval_step E m bs criterion device desc).trace).map Event.tag ∧
    Tag.scalerStep ∉ ((eval_step E m bs criterion device desc).trace).map Event.tag ∧
    Tag.scalerUpdate ∉ ((eval_step E m bs criterion device desc).trace).map Event.tag ∧
    Tag.schedulerStep ∉ ((eval_step E m bs criterion device desc).trace).map Event.tag := by
  have hp : (eval_step E m bs criterion device desc).model.params = m.params := by
    rw [eval_step_model]
    rfl
  refine ⟨hp, ?_, ?_, ?_, ?_, ?_⟩ <;>
  · rw [eval_step, evalLoop_tagTrace]
    simp [evalInit, Event.tag, evalBlockTags, List.mem_flatten, List.mem_replicate]

/-- C6: `eval_step` is idempotent as an observation — calling it again
on the model returned by a first call (same batches, criterion, device,
label) yields an identical history. -/
theorem eval_step_idempotent (E : Ext) (m : Model) (bs : List Batch)
    (criterion : Tensor → Tensor → LossResult) (device desc : String) :
    (eval_step E ((eval_step E m bs criterion device desc).model) bs criterion device
        desc).history =
      (eval_step E m bs criterion device desc).history := by
  rw [eval_step_model]
  rfl

/-- C9: the descriptive label of `eval_step` has no influence on the
computed history — two calls differing only in the label return
identical history sequences. -/
theorem eval_desc_no_influence (E : Ext) (m : Model) (bs : List Batch)
    (criterion : Tensor → Tensor → LossResult) (device : String) (d1 d2 : String) :
    (eval_step E m bs criterion device d1).history =
      (eval_step E m bs criterion device d2).history :=
  (evalLoop_desc_irrel E criterion device d1 d2 bs (evalInit m bs.length)
    (evalInit m bs.length) 0 rfl rfl rfl rfl rfl).2.1

/-! ### Facts about the training loop -/

theorem trainBatch_scheduler (E : Ext) (criterion : Tensor → Tensor → LossResult)
    (device : String) (st : TrainState) (i : ℕ) (b : Batch) :
    (trainBatch E criterion device st i b).scheduler =
      st.scheduler.map (fun s => ⟨s.stepCount + 1, s.lrs⟩) := by
  cases h : st.scheduler <;> simp [trainBatch, h, Scheduler.step]

theorem trainLoop_scheduler (E : Ext) (criterion : Tensor → Tensor → LossResult)
    (device : String) :
    ∀ (bs : List Batch) (st : TrainState) (i : ℕ),
      (trainLoop E criterion device st i bs).scheduler =
        st.scheduler.map (fun s => ⟨s.stepCount + bs.length, s.lrs⟩) := by
  intro bs
  induction bs with
  | nil =>
      intro st i
      simp only [trainLoop]
      cases h : st.scheduler <;> simp [h]
  | cons b bs ih =>
      intro st i
      simp only [trainLoop]
      rw [ih, trainBatch_scheduler]
      cases h : st.scheduler <;> simp [h, Scheduler.mk.injEq]
      omega

theorem trainBatch_trace_map_some (E : Ext) (criterion : Tensor → Tensor → LossResult)
    (device : String) (st : TrainState) (i : ℕ) (b : Batch) (s : Scheduler)
    (h : st.scheduler = some s) :
    ((trainBatch E criterion device st i b).trace).map Event.tag =
      st.trace.map Event.tag ++ trainBlockTagsSome := by
  simp [trainBatch, h, Event.tag, trainBlockTagsSome]

theorem trainBatch_trace_map_none (E : Ext) (criterion : Tensor → Tensor → LossResult)
    (device : String) (st : TrainState) (i : ℕ) (b : Batch) (h : st.scheduler = none) :
    ((trainBatch E criterion device st i b).trace).map Event.tag =
      st.trace.map Event.tag ++ trainBlockTagsNone := by
  simp [trainBatch, h, Event.tag, trainBlockTagsNone]

theorem trainLoop_tagTrace_some (E : Ext) (criterion : Tensor → Tensor → LossResult)
    (device : String) :
    ∀ (bs : List Batch) (st : TrainState) (s : Scheduler), st.scheduler = some s → ∀ (i : ℕ),
      ((trainLoop E criterion device st i bs).trace).map Event.tag =
        st.trace.map Event.tag ++ (List.replicate bs.length trainBlockTagsSome).flatten := by
  intro bs
  induction bs with
  | nil =>
      intro st s h i
      simp [trainLoop]
  | cons b bs ih =>
      intro st s h i
      simp only [trainLoop]
      have h2 : (trainBatch E criterion device st i b).scheduler =
          some ⟨s.stepCount + 1, s.lrs⟩ := by
        rw [trainBatch_scheduler, h]
        rfl
      rw [ih _ _ h2 _, trainBatch_trace_map_some E criterion device st i b s h]
      simp [List.replicate_succ]

theorem trainLoop_tagTrace_none (E : Ext) (criterion : Tensor → Tensor → LossResult)
    (device : String) :
    ∀ (bs : List Batch) (st : TrainState), st.scheduler = none → ∀ (i : ℕ),
      ((trainLoop E criterion device st i bs).trace).map Event.tag =
        st.trace.map Event.tag ++ (List.replicate bs.length trainBlockTagsNone).flatten := by
  intro bs
  induction bs with
  | nil =>
      intro st h i
      simp [trainLoop]
  | cons b bs ih =>
      intro st h i
      simp only [trainLoop]
      have h2 : (trainBatch E criterion device st i b).scheduler = none := by
        rw [trainBatch_scheduler, h]
        rfl
      rw [ih _ h2 _, trainBatch_trace_map_none E criterion device st i b h]
      simp [List.replicate_succ]

theorem filter_schedulerStep_block :
    trainBlockTagsSome.filter (fun t => t != Tag.schedulerStep) = trainBlockTagsNone := by
  decide

/-- C3: with a scheduler, a full training pass advances the scheduler's
step counter by exactly the number of batches; with no scheduler, no
scheduler step occurs, and the pass performs the same operations in the
same order apart from the scheduler steps. -/
theorem scheduler_steps_once_per_batch (E : Ext) (m : Model) (bs : List Batch)
    (optimizer : Optimizer) (criterion : Tensor → Tensor → LossResult) (device : String)
    (scaler : GradScaler) (s : Scheduler) :
    (train_step E m bs optimizer criterion device scaler (some s)).scheduler =
        some ⟨s.stepCount + bs.length, s.lrs⟩ ∧
    Tag.schedulerStep ∉
        ((train_step E m bs optimizer criterion device scaler none).trace).map Event.tag ∧
    (((train_step E m bs optimizer criterion device scaler (some s)).trace).map
          Event.tag).filter (fun t => t != Tag.schedulerStep) =
      ((train_step E m bs optimizer criterion device scaler none).trace).map Event.tag := by
  refine ⟨?_, ?_, ?_⟩
  · rw [train_step, trainLoop_scheduler]
    rfl
  · rw [train_step, trainLoop_tagTrace_none E criterion device bs _ rfl]
    simp [trainInit, Event.tag, trainBlockTagsNone, List.mem_flatten, List.mem_replicate]
  · rw [train_step, train_step, trainLoop_tagTrace_some E criterion device bs _ s rfl,
      trainLoop_tagTrace_none E criterion device bs _ rfl]
    simp only [List.filter_append, List.filter_flatten, List.map_replicate,
      filter_schedulerStep_block]
    rfl

/-- C4: every training batch performs the same fixed operation order —
device transfer, forward, loss, zero-grad, backward, scaler step, scaler
update, then (iff a scheduler is present) the scheduler step, then the
progress display — and the value propagated backward is the combined
loss multiplied by the scaler's current scale factor. -/
theorem train_batch_operation_order (E : Ext) (m : Model) (bs : List Batch)
    (optimizer : Optimizer) (criterion : Tensor → Tensor → LossResult) (device : String)
    (scaler : GradScaler) (s : Scheduler) :
    ((train_step E m bs optimizer criterion device scaler (some s)).trace).map Event.tag =
        Tag.trainMode :: (List.replicate bs.length trainBlockTagsSome).flatten ∧
    ((train_step E m bs optimizer criterion device scaler none).trace).map Event.tag =
        Tag.trainMode :: (List.replicate bs.length trainBlockTagsNone).flatten ∧
    ∀ (st : TrainState) (i : ℕ) (b : Batch),
      (trainBatch E criterion device st i b).grads =
        some (E.backwardFn (st.scaler.scale * (batchValues E criterion device st.model b).1)
          st.model.params) := by
  refine ⟨?_, ?_, ?_⟩
  · rw [train_step, trainLoop_tagTrace_some E criterion device bs _ s rfl]
    rfl
  · rw [train_step, trainLoop_tagTrace_none E criterion device bs _ rfl]
    rfl
  · intro st i b
    rfl

theorem recordedTriples_length (E : Ext) (criterion : Tensor → Tensor → LossResult)
    (device : String) :
    ∀ (bs : List Batch) (st : TrainState) (i : ℕ),
      (recordedTriples E criterion device st i bs).length = bs.length := by
  intro bs
  induction bs with
  | nil => intro st i; rfl
  | cons b bs ih =>
      intro st i
      simp only [recordedTriples, List.length_cons, ih]

theorem trainLoop_fill (E : Ext) (criterion : Tensor → Tensor → LossResult)
    (device : String) :
    ∀ (bs : List Batch) (st : TrainState) (i : ℕ),
      st.history.loss.length = i + bs.length →
      st.history.dice.length = i + bs.length →
      st.history.hausdorff.length = i + bs.length →
      (trainLoop E criterion device st i bs).history.loss =
          st.history.loss.take i ++
            (recordedTriples E criterion device st i bs).map (fun v => v.1) ∧
      (trainLoop E criterion device st i bs).history.dice =
          st.history.dice.take i ++
            (recordedTriples E criterion device st i bs).map (fun v => v.2.1) ∧
      (trainLoop E criterion device st i bs).history.hausdorff =
          st.history.hausdorff.take i ++
            (recordedTriples E criterion device st i bs).map (fun v => v.2.2) := by
  intro bs
  induction bs with
  | nil =>
      intro st i h1 h2 h3
      simp only [List.length_nil, Nat.add_zero] at h1 h2 h3
      refine ⟨?_, ?_, ?_⟩
      · simp only [trainLoop, recordedTriples]
        rw [← h1]
        simp
      · simp only [trainLoop, recordedTriples]
        rw [← h2]
        simp
      · simp only [trainLoop, recordedTriples]
        rw [← h3]
        simp
  | cons b bs ih =>
      intro st i h1 h2 h3
      simp only [List.length_cons] at h1 h2 h3
      have hl : (trainBatch E criterion device st i b).history.loss =
          st.history.loss.set i (batchValues E criterion device st.model b).1 := rfl
      have hd : (trainBatch E criterion device st i b).history.dice =
          st.history.dice.set i (batchValues E criterion device st.model b).2.1 := rfl
      have hhd : (trainBatch E criterion device st i b).history.hausdorff =
          st.history.hausdorff.set i (batchValues E criterion device st.model b).2.2 := rfl
      obtain ⟨l1, l2, l3⟩ := ih (trainBatch E criterion device st i b) (i + 1)
        (by rw [hl]; simp only [List.length_set]; omega)
        (by rw [hd]; simp only [List.length_set]; omega)
        (by rw [hhd]; simp only [List.length_set]; omega)
      rw [hl] at l1
      rw [hd] at l2
      rw [hhd] at l3
      simp only [trainLoop, recordedTriples]
      refine ⟨?_, ?_, ?_⟩
      · rw [l1, take_succ_set _ _ _ (by omega)]
        simp [List.append_assoc]
      · rw [l2, take_succ_set _ _ _ (by omega)]
        simp [List.append_assoc]
      · rw [l3, take_succ_set _ _ _ (by omega)]
        simp [List.append_assoc]

theorem trainLoop_running (E : Ext) (criterion : Tensor → Tensor → LossResult)
    (device : String) :
    ∀ (bs : List Batch) (st : TrainState) (i : ℕ),
      (trainLoop E criterion device st i bs).running_loss =
          st.running_loss +
            ((recordedTriples E criterion device st i bs).map (fun v => v.1)).sum ∧
      (trainLoop E criterion device st i bs).running_dice =
          st.running_dice +
            ((recordedTriples E criterion device st i bs).map (fun v => v.2.1)).sum := by
  intro bs
  induction bs with
  | nil =>
      intro st i
      simp [trainLoop, recordedTriples]
  | cons b bs ih =>
      intro st i
      simp only [trainLoop, recordedTriples]
      obtain ⟨r1, r2⟩ := ih (trainBatch E criterion device st i b) (i + 1)
      rw [r1, r2]
      have e1 : (trainBatch E criterion device st i b).running_loss =
          st.running_loss + (batchValues E criterion device st.model b).1 := rfl
      have e2 : (trainBatch E criterion device st i b).running_dice =
          st.running_dice + (batchValues E criterion device st.model b).2.1 := rfl
      rw [e1, e2]
      constructor <;> · simp; ring

theorem trainLoop_lastDisplay (E : Ext) (criterion : Tensor → Tensor → LossResult)
    (device : String) :
    ∀ (bs : List Batch) (st : TrainState) (i : ℕ), bs ≠ [] →
      lastDisplay (trainLoop E criterion device st i bs).trace =
        some ("Training",
          (trainLoop E criterion device st i bs).running_loss / ((i + bs.length : ℕ) : Scalar),
          (trainLoop E criterion device st i bs).running_dice /
            ((i + bs.length : ℕ) : Scalar)) := by
  intro bs
  induction bs with
  | nil => intro st i h; exact absurd rfl h
  | cons b bs ih =>
      intro st i _
      rcases eq_or_ne bs [] with rfl | hne
      · simp only [trainLoop]
        cases h : st.scheduler <;>
          simp [lastDisplay, trainBatch, h, displayData, List.filterMap_append]
      · simp only [trainLoop]
        rw [ih _ _ hne]
        simp only [List.length_cons]
        rw [show i + 1 + bs.length = i + (bs.length + 1) from by omega]

/-- C1: the history returned by either runner has its three sequences of
length exactly the number of batches, and every index holds exactly the
values recorded for that batch (training: following the evolving model
state; evaluation: the fixed evaluation-mode model). -/
theorem history_length_and_filled (E : Ext) (m : Model) (bs : List Batch)
    (optimizer : Optimizer) (criterion : Tensor → Tensor → LossResult) (device : String)
    (scaler : GradScaler) (scheduler : Option Scheduler) (desc : String) :
    (train_step E m bs optimizer criterion device scaler scheduler).history.loss.length =
        bs.length ∧
    (train_step E m bs optimizer criterion device scaler scheduler).history.dice.length =
        bs.length ∧
    (train_step E m bs optimizer criterion device scaler
        scheduler).history.hausdorff.length = bs.length ∧
    (train_step E m bs optimizer criterion device scaler scheduler).history.loss =
        (recordedTriples E criterion device
          (trainInit m optimizer scaler scheduler bs.length) 0 bs).map (fun v => v.1) ∧
    (train_step E m bs optimizer criterion device scaler scheduler).history.dice =
        (recordedTriples E criterion device
          (trainInit m optimizer scaler scheduler bs.length) 0 bs).map (fun v => v.2.1) ∧
    (train_step E m bs optimizer criterion device scaler scheduler).history.hausdorff =
        (recordedTriples E criterion device
          (trainInit m optimizer scaler scheduler bs.length) 0 bs).map (fun v => v.2.2) ∧
    (eval_step E m bs criterion device desc).history.loss.length = bs.length ∧
    (eval_step E m bs criterion device desc).history.dice.length = bs.length ∧
    (eval_step E m bs criterion device desc).history.hausdorff.length = bs.length ∧
    (eval_step E m bs criterion device desc).history.loss =
        bs.map (fun b => (batchValues E criterion device m.evalMode b).1) ∧
    (eval_step E m bs criterion device desc).history.dice =
        bs.map (fun b => (batchValues E criterion device m.evalMode b).2.1) ∧
    (eval_step E m bs criterion device desc).history.hausdorff =
        bs.map (fun b => (batchValues E criterion device m.evalMode b).2.2) := by
  obtain ⟨t1, t2, t3⟩ := trainLoop_fill E criterion device bs
    (trainInit m optimizer scaler scheduler bs.length) 0
    (by simp [trainInit, History.zeros]) (by simp [trainInit, History.zeros])
    (by simp [trainInit, History.zeros])
  obtain ⟨e1, e2, e3⟩ := evalLoop_fill E criterion device desc bs (evalInit m bs.length) 0
    (by simp [evalInit, History.zeros]) (by simp [evalInit, History.zeros])
    (by simp [evalInit, History.zeros])
  simp only [List.take_zero, List.nil_append] at t1 t2 t3 e1 e2 e3
  have hm : (evalInit m bs.length).model = m.evalMode := rfl
  rw [hm] at e1 e2 e3
  rw [train_step, eval_step]
  refine ⟨?_, ?_, ?_, t1, t2, t3, ?_, ?_, ?_, e1, e2, e3⟩
  · rw [t1]
    simp [recordedTriples_length]
  · rw [t2]
    simp [recordedTriples_length]
  · rw [t3]
    simp [recordedTriples_length]
  · rw [e1]
    simp
  · rw [e2]
    simp
  · rw [e3]
    simp

/-- C7: for a non-empty pass of either runner, the running average shown
at the final batch equals the full-pass mean of the recorded history
(for both the loss and the overlap metric, the two displayed values). -/
theorem running_average_matches_mean (E : Ext) (m : Model) (bs bs' : List Batch)
    (optimizer : Optimizer) (criterion : Tensor → Tensor → LossResult) (device : String)
    (scaler : GradScaler) (scheduler : Option Scheduler) (desc : String)
    (h : bs ≠ []) (h' : bs' ≠ []) :
    lastDisplay (train_step E m bs optimizer criterion device scaler scheduler).trace =
        some ("Training",
          npMean (train_step E m bs optimizer criterion device scaler
            scheduler).history.loss,
          npMean (train_step E m bs optimizer criterion device scaler
            scheduler).history.dice) ∧
    lastDisplay (eval_step E m bs' criterion device desc).trace =
        some (desc, npMean (eval_step E m bs' criterion device desc).history.loss,
          npMean (eval_step E m bs' criterion device desc).history.dice) := by
  constructor
  · obtain ⟨t1, t2, t3⟩ := trainLoop_fill E criterion device bs
      (trainInit m optimizer scaler scheduler bs.length) 0
      (by simp [trainInit, History.zeros]) (by simp [trainInit, History.zeros])
      (by simp [trainInit, History.zeros])
    obtain ⟨r1, r2⟩ := trainLoop_running E criterion device bs
      (trainInit m optimizer scaler scheduler bs.length) 0
    simp only [List.take_zero, List.nil_append] at t1 t2
    have h0l : (trainInit m optimizer scaler scheduler bs.length).running_loss = 0 := rfl
    have h0d : (trainInit m optimizer scaler scheduler bs.length).running_dice = 0 := rfl
    rw [h0l, zero_add] at r1
    rw [h0d, zero_add] at r2
    rw [train_step, trainLoop_lastDisplay E criterion device bs _ 0 h]
    rw [npMean, npMean, t1, t2, r1, r2]
    simp [recordedTriples_length]
  · obtain ⟨e1, e2, e3⟩ := evalLoop_fill E criterion device desc bs' (evalInit m bs'.length) 0
      (by simp [evalInit, History.zeros]) (by simp [evalInit, History.zeros])
      (by simp [evalInit, History.zeros])
    obtain ⟨r1, r2⟩ := evalLoop_running E criterion device desc bs' (evalInit m bs'.length) 0
    simp only [List.take_zero, List.nil_append] at e1 e2
    have h0l : (evalInit m bs'.length).running_loss = 0 := rfl
    have h0d : (evalInit m bs'.length).running_dice = 0 := rfl
    rw [h0l, zero_add] at r1
    rw [h0d, zero_add] at r2
    rw [eval_step, evalLoop_lastDisplay E criterion device desc bs' _ 0 h']
    rw [npMean, npMean, e1, e2, r1, r2]
    simp

/-! ### Concrete instances for witnesses -/

/-- A concrete forward function: the identity on the input tensor. -/
def cForward : List Scalar → Bool → Tensor → Tensor := fun _ _ t => t

/-- A concrete model. -/
def cModel : Model := ⟨[0], true, cForward⟩

/-- Concrete external collaborators: zero metrics, identity gradients,
an optimizer step that leaves parameters unchanged, an identity scaler
update. -/
def cExt : Ext :=
  { dice_score := fun _ _ => 0
    hausdorff_distance := fun _ _ => 0
    backwardFn := fun _ p => p
    scalerStepFn := fun _ _ p o => (p, o)
    scalerUpdateFn := fun s => s }

/-- A concrete criterion whose combined loss is the sum of the mask. -/
def cCriterion : Tensor → Tensor → LossResult := fun _ masks => ⟨masks.data.sum⟩

/-- A one-pixel batch whose mask sums to `q`. -/
def cBatch (q : Scalar) : Batch := ⟨⟨[q], "cpu"⟩, ⟨[q], "cpu"⟩⟩

/-- A three-batch loader with combined losses 0.1, 0.2, 0.3. -/
def cLoader : List Batch := [cBatch (1 / 10), cBatch (2 / 10), cBatch (3 / 10)]

/-- A concrete optimizer. -/
def cOptimizer : Optimizer := ⟨1, []⟩

/-- A concrete scheduler with a constant schedule. -/
def cScheduler : Scheduler := ⟨0, fun _ => 1⟩

/-- A concrete gradient scaler with scale factor 1. -/
def cScaler : GradScaler := ⟨1, 1⟩

/-- Witness for C7 at a concrete three-batch run of each runner. -/
theorem running_average_matches_mean_witness :
    cLoader ≠ [] ∧
    (lastDisplay (train_step cExt cModel cLoader cOptimizer cCriterion "cpu" cScaler
          (some cScheduler)).trace =
        some ("Training",
          npMean (train_step cExt cModel cLoader cOptimizer cCriterion "cpu" cScaler
            (some cScheduler)).history.loss,
          npMean (train_step cExt cModel cLoader cOptimizer cCriterion "cpu" cScaler
            (some cScheduler)).history.dice) ∧
      lastDisplay (eval_step cExt cModel cLoader cCriterion "cpu" "Validating").trace =
        some ("Validating",
          npMean (eval_step cExt cModel cLoader cCriterion "cpu" "Validating").history.loss,
          npMean (eval_step cExt cModel cLoader cCriterion "cpu"
            "Validating").history.dice)) :=
  ⟨by decide, running_average_matches_mean cExt cModel cLoader cLoader cOptimizer cCriterion
    "cpu" cScaler (some cScheduler) "Validating" (by decide) (by decide)⟩

/-! ### Facts about the orchestrator -/

theorem train_step_tagTrace (E : Ext) (m : Model) (bs : List Batch) (optimizer : Optimizer)
    (criterion : Tensor → Tensor → LossResult) (device : String) (scaler : GradScaler)
    (s : Scheduler) :
    ((train_step E m bs optimizer criterion device scaler (some s)).trace).map Event.tag =
      Tag.trainMode :: (List.replicate bs.length trainBlockTagsSome).flatten := by
  rw [train_step, trainLoop_tagTrace_some E criterion device bs _ s rfl]
  rfl

theorem eval_step_tagTrace (E : Ext) (m : Model) (bs : List Batch)
    (criterion : Tensor → Tensor → LossResult) (device desc : String) :
    ((eval_step E m bs criterion device desc).trace).map Event.tag =
      Tag.evalMode :: (List.replicate bs.length evalBlockTags).flatten := by
  rw [eval_step, evalLoop_tagTrace]
  rfl

theorem runEpoch_trace_tags (E : Ext) (criterion : Tensor → Tensor → LossResult)
    (device : String) (trainLoader valLoader : List Batch) (st : OrchState) (e : ℕ) :
    ((runEpoch E criterion device trainLoader valLoader st e).trace).map Event.tag =
      st.trace.map Event.tag ++ [Tag.epochHeader] ++
        (Tag.trainMode :: (List.replicate trainLoader.length trainBlockTagsSome).flatten) ++
        (Tag.evalMode :: (List.replicate valLoader.length evalBlockTags).flatten) ++
        [Tag.reportLR, Tag.reportTrain, Tag.reportVal] := by
  simp only [runEpoch, List.map_append]
  rw [train_step_tagTrace, eval_step_tagTrace]
  simp [Event.tag]

theorem epochLoop_no_save (E : Ext) (criterion : Tensor → Tensor → LossResult)
    (device : String) (trainLoader valLoader : List Batch) :
    ∀ (k : ℕ) (st : OrchState) (e : ℕ),
      Tag.save ∉ st.trace.map Event.tag → Tag.makedirs ∉ st.trace.map Event.tag →
      Tag.save ∉
          ((epochLoop E criterion device trainLoader valLoader st e k).trace).map Event.tag ∧
      Tag.makedirs ∉
          ((epochLoop E criterion device trainLoader valLoader st e k).trace).map Event.tag := by
  intro k
  induction k with
  | zero =>
      intro st e h1 h2
      exact ⟨h1, h2⟩
  | succ k ih =>
      intro st e h1 h2
      simp only [epochLoop]
      refine ih _ _ ?_ ?_
      · rw [runEpoch_trace_tags]
        simp [List.mem_append, not_or, trainBlockTagsSome, evalBlockTags, List.mem_flatten,
          List.mem_replicate, h1]
      · rw [runEpoch_trace_tags]
        simp [List.mem_append, not_or, trainBlockTagsSome, evalBlockTags, List.mem_flatten,
          List.mem_replicate, h2]

theorem epochLoop_epochData (E : Ext) (criterion : Tensor → Tensor → LossResult)
    (device : String) (trainLoader valLoader : List Batch) :
    ∀ (k : ℕ) (st : OrchState) (e : ℕ) (d : EpochData),
      d ∈ (epochLoop E criterion device trainLoader valLoader st e k).epochData →
      d ∈ st.epochData ∨
        (d.trainLoss = npMean d.trainHist.loss ∧ d.trainDice = npMean d.trainHist.dice ∧
          d.valLoss = npMean d.valHist.loss ∧ d.valDice = npMean d.valHist.dice) := by
  intro k
  induction k with
  | zero =>
      intro st e d hd
      exact Or.inl hd
  | succ k ih =>
      intro st e d hd
      simp only [epochLoop] at hd
      rcases ih _ _ _ hd with h | h
      · simp only [runEpoch, List.mem_append, List.mem_singleton] at h
        rcases h with h | h
        · exact Or.inl h
        · subst h
          exact Or.inr ⟨rfl, rfl, rfl, rfl⟩
      · exact Or.inr h

/-- C5: in every complete run of the orchestrator the weights are saved
exactly once, as the final action, immediately after the directory
creation; everything before that point (all epochs and the test pass)
contains no persistence event. -/
theorem weights_saved_once_after_test (E : Ext) (n_epochs : ℕ) (model0 : Model)
    (trainLoader valLoader testLoader : List Batch) (optimizer0 : Optimizer)
    (scheduler0 : Scheduler) (criterion : Tensor → Tensor → LossResult) (device : String)
    (scaler0 : GradScaler) :
    ∃ pre : List Event,
      (train E n_epochs model0 trainLoader valLoader testLoader optimizer0 scheduler0
          criterion device scaler0).trace =
        pre ++ [Event.makedirs "../models",
          Event.save (train E n_epochs model0 trainLoader valLoader testLoader optimizer0
            scheduler0 criterion device scaler0).model.params "../models/UNet.pth"] ∧
      Tag.save ∉ pre.map Event.tag ∧ Tag.makedirs ∉ pre.map Event.tag := by
  obtain ⟨hs, hm⟩ := epochLoop_no_save E criterion device trainLoader valLoader n_epochs
    { model := model0
      optimizer := optimizer0
      scaler := scaler0
      scheduler := scheduler0
      epochData := []
      trace := [] } 0 (by simp) (by simp)
  simp only [train]
  generalize hst : epochLoop E criterion device trainLoader valLoader
    { model := model0
      optimizer := optimizer0
      scaler := scaler0
      scheduler := scheduler0
      epochData := []
      trace := [] } 0 n_epochs = st
  rw [hst] at hs hm
  have he := eval_step_tagTrace E st.model testLoader criterion device "Testing"
  generalize hts : eval_step E st.model testLoader criterion device "Testing" = ts
  rw [hts] at he
  refine ⟨st.trace ++ ts.trace ++
    [Event.reportTest (npMean ts.history.loss) (npMean ts.history.dice)], ?_, ?_, ?_⟩
  · simp [List.append_assoc]
  · simp only [List.map_append, List.mem_append, not_or]
    refine ⟨⟨hs, ?_⟩, ?_⟩
    · rw [he]
      simp [evalBlockTags, List.mem_flatten, List.mem_replicate]
    · simp [Event.tag]
  · simp only [List.map_append, List.mem_append, not_or]
    refine ⟨⟨hm, ?_⟩, ?_⟩
    · rw [he]
      simp [evalBlockTags, List.mem_flatten, List.mem_replicate]
    · simp [Event.tag]

/-- C8: every aggregate the orchestrator reports is the arithmetic mean
of the per-batch history entries returned by the corresponding runner:
for any epoch, the reported train and validation losses (and dice
scores) equal the sum of the recorded per-batch values divided by the
number of batches, and likewise for the final test pass. -/
theorem epoch_mean_is_arithmetic_mean (E : Ext) (n_epochs : ℕ) (model0 : Model)
    (trainLoader valLoader testLoader : List Batch) (optimizer0 : Optimizer)
    (scheduler0 : Scheduler) (criterion : Tensor → Tensor → LossResult) (device : String)
    (scaler0 : GradScaler) (d : EpochData)
    (hd : d ∈ (train E n_epochs model0 trainLoader valLoader testLoader optimizer0 scheduler0
      criterion device scaler0).epochData)
    (hneTrain : d.trainHist.loss ≠ []) (hneVal : d.valHist.loss ≠ [])
    (hneTest : (train E n_epochs model0 trainLoader valLoader testLoader optimizer0 scheduler0
      criterion device scaler0).testHist.loss ≠ []) :
    d.trainLoss = d.trainHist.loss.sum / (d.trainHist.loss.length : Scalar) ∧
    d.trainDice = d.trainHist.dice.sum / (d.trainHist.dice.length : Scalar) ∧
    d.valLoss = d.valHist.loss.sum / (d.valHist.loss.length : Scalar) ∧
    d.valDice = d.valHist.dice.sum / (d.valHist.dice.length : Scalar) ∧
    (train E n_epochs model0 trainLoader valLoader testLoader optimizer0 scheduler0
        criterion device scaler0).testLoss =
      (train E n_epochs model0 trainLoader valLoader testLoader optimizer0 scheduler0
          criterion device scaler0).testHist.loss.sum /
        ((train E n_epochs model0 trainLoader valLoader testLoader optimizer0 scheduler0
          criterion device scaler0).testHist.loss.length : Scalar) ∧
    (train E n_epochs model0 trainLoader valLoader testLoader optimizer0 scheduler0
        criterion device scaler0).testDice =
      (train E n_epochs model0 trainLoader valLoader testLoader optimizer0 scheduler0
          criterion device scaler0).testHist.dice.sum /
        ((train E n_epochs model0 trainLoader valLoader testLoader optimizer0 scheduler0
          criterion device scaler0).testHist.dice.length : Scalar) := by
  have hd' : d ∈ (epochLoop E criterion device trainLoader valLoader
      { model := model0
        optimizer := optimizer0
        scaler := scaler0
        scheduler := scheduler0
        epochData := []
        trace := [] } 0 n_epochs).epochData := hd
  rcases epochLoop_epochData E criterion device trainLoader valLoader n_epochs _ 0 d hd'
    with h | h
  · simp at h
  · obtain ⟨h1, h2, h3, h4⟩ := h
    refine ⟨?_, ?_, ?_, ?_, rfl, rfl⟩
    · rw [h1, npMean]
    · rw [h2, npMean]
    · rw [h3, npMean]
    · rw [h4, npMean]

/-- A concrete one-epoch orchestrator run over the three-batch loader. -/
def cRun : OrchResult :=
  train cExt 1 cModel cLoader [cBatch 1] [cBatch 1] cOptimizer cScheduler cCriterion "cpu"
    cScaler

/-- The epoch data of the single epoch of `cRun`. -/
def cEpoch : EpochData := cRun.epochData.headI

/-- Witness for C8: in the concrete run the recorded training losses
are [0.1, 0.2, 0.3] and the reported epoch mean is 0.2 = 1/5; the
train, validation and test aggregates all equal the sum of the
corresponding recorded values divided by their count. -/
theorem epoch_mean_is_arithmetic_mean_witness :
    (cEpoch ∈ cRun.epochData ∧ cEpoch.trainHist.loss ≠ [] ∧ cEpoch.valHist.loss ≠ [] ∧
      cRun.testHist.loss ≠ []) ∧
    cEpoch.trainHist.loss = [1 / 10, 2 / 10, 3 / 10] ∧
    cEpoch.trainLoss = 1 / 5 ∧
    (cEpoch.trainLoss = cEpoch.trainHist.loss.sum / (cEpoch.trainHist.loss.length : Scalar) ∧
      cEpoch.trainDice = cEpoch.trainHist.dice.sum / (cEpoch.trainHist.dice.length : Scalar) ∧
      cEpoch.valLoss = cEpoch.valHist.loss.sum / (cEpoch.valHist.loss.length : Scalar) ∧
      cEpoch.valDice = cEpoch.valHist.dice.sum / (cEpoch.valHist.dice.length : Scalar) ∧
      cRun.testLoss = cRun.testHist.loss.sum / (cRun.testHist.loss.length : Scalar) ∧
      cRun.testDice = cRun.testHist.dice.sum / (cRun.testHist.dice.length : Scalar)) :=
  ⟨⟨by norm_num [cEpoch, cRun, train, epochLoop, runEpoch, train_step, eval_step, trainLoop,
      evalLoop, trainBatch, evalBatch, batchValues, trainInit, evalInit, History.zeros,
      npMean, cExt, cCriterion, cModel, cForward, cLoader, cBatch, cOptimizer, cScheduler,
      cScaler, Model.train, Model.evalMode, Model.apply, Tensor.to, Scheduler.step,
      Scheduler.get_last_lr, List.replicate, List.set, List.sum_cons, List.sum_nil,
      List.cons_ne_nil],
    by norm_num [cEpoch, cRun, train, epochLoop, runEpoch, train_step, eval_step, trainLoop,
      evalLoop, trainBatch, evalBatch, batchValues, trainInit, evalInit, History.zeros,
      npMean, cExt, cCriterion, cModel, cForward, cLoader, cBatch, cOptimizer, cScheduler,
      cScaler, Model.train, Model.evalMode, Model.apply, Tensor.to, Scheduler.step,
      Scheduler.get_last_lr, List.replicate, List.set, List.sum_cons, List.sum_nil,
      List.cons_ne_nil],
    by norm_num [cEpoch, cRun, train, epochLoop, runEpoch, train_step, eval_step, trainLoop,
      evalLoop, trainBatch, evalBatch, batchValues, trainInit, evalInit, History.zeros,
      npMean, cExt, cCriterion, cModel, cForward, cLoader, cBatch, cOptimizer, cScheduler,
      cScaler, Model.train, Model.evalMode, Model.apply, Tensor.to, Scheduler.step,
      Scheduler.get_last_lr, List.replicate, List.set, List.sum_cons, List.sum_nil,
      List.cons_ne_nil],
    by norm_num [cEpoch, cRun, train, epochLoop, runEpoch, train_step, eval_step, trainLoop,
      evalLoop, trainBatch, evalBatch, batchValues, trainInit, evalInit, History.zeros,
      npMean, cExt, cCriterion, cModel, cForward, cLoader, cBatch, cOptimizer, cScheduler,
      cScaler, Model.train, Model.evalMode, Model.apply, Tensor.to, Scheduler.step,
      Scheduler.get_last_lr, List.replicate, List.set, List.sum_cons, List.sum_nil,
      List.cons_ne_nil]⟩,
  by norm_num [cEpoch, cRun, train, epochLoop, runEpoch, train_step, eval_step, trainLoop,
      evalLoop, trainBatch, evalBatch, batchValues, trainInit, evalInit, History.zeros,
      npMean, cExt, cCriterion, cModel, cForward, cLoader, cBatch, cOptimizer, cScheduler,
      cScaler, Model.train, Model.evalMode, Model.apply, Tensor.to, Scheduler.step,
      Scheduler.get_last_lr, List.replicate, List.set, List.sum_cons, List.sum_nil,
      List.cons_ne_nil],
  by norm_num [cEpoch, cRun, train, epochLoop, runEpoch, train_step, eval_step, trainLoop,
      evalLoop, trainBatch, evalBatch, batchValues, trainInit, evalInit, History.zeros,
      npMean, cExt, cCriterion, cModel, cForward, cLoader, cBatch, cOptimizer, cScheduler,
      cScaler, Model.train, Model.evalMode, Model.apply, Tensor.to, Scheduler.step,
      Scheduler.get_last_lr, List.replicate, List.set, List.sum_cons, List.sum_nil,
      List.cons_ne_nil],
  epoch_mean_is_arithmetic_mean cExt 1 cModel cLoader [cBatch 1] [cBatch 1] cOptimizer
    cScheduler cCriterion "cpu" cScaler cEpoch
    (by norm_num [cEpoch, cRun, train, epochLoop, runEpoch, train_step, eval_step, trainLoop,
      evalLoop, trainBatch, evalBatch, batchValues, trainInit, evalInit, History.zeros,
      npMean, cExt, cCriterion, cModel, cForward, cLoader, cBatch, cOptimizer, cScheduler,
      cScaler, Model.train, Model.evalMode, Model.apply, Tensor.to, Scheduler.step,
      Scheduler.get_last_lr, List.replicate, List.set, List.sum_cons, List.sum_nil,
      List.cons_ne_nil])
    (by norm_num [cEpoch, cRun, train, epochLoop, runEpoch, train_step, eval_step, trainLoop,
      evalLoop, trainBatch, evalBatch, batchValues, trainInit, evalInit, History.zeros,
      npMean, cExt, cCriterion, cModel, cForward, cLoader, cBatch, cOptimizer, cScheduler,
      cScaler, Model.train, Model.evalMode, Model.apply, Tensor.to, Scheduler.step,
      Scheduler.get_last_lr, List.replicate, List.set, List.sum_cons, List.sum_nil,
      List.cons_ne_nil])
    (by norm_num [cEpoch, cRun, train, epochLoop, runEpoch, train_step, eval_step, trainLoop,
      evalLoop, trainBatch, evalBatch, batchValues, trainInit, evalInit, History.zeros,
      npMean, cExt, cCriterion, cModel, cForward, cLoader, cBatch, cOptimizer, cScheduler,
      cScaler, Model.train, Model.evalMode, Model.apply, Tensor.to, Scheduler.step,
      Scheduler.get_last_lr, List.replicate, List.set, List.sum_cons, List.sum_nil,
      List.cons_ne_nil])
    (by norm_num [cEpoch, cRun, train, epochLoop, runEpoch, train_step, eval_step, trainLoop,
      evalLoop, trainBatch, evalBatch, batchValues, trainInit, evalInit, History.zeros,
      npMean, cExt, cCriterion, cModel, cForward, cLoader, cBatch, cOptimizer, cScheduler,
      cScaler, Model.train, Model.evalMode, Model.apply, Tensor.to, Scheduler.step,
      Scheduler.get_last_lr, List.replicate, List.set, List.sum_cons, List.sum_nil,
      List.cons_ne_nil])⟩

end UNetTrain
